import Mathlib

/-!
Verification of the data-provisioning adapter of `src/frontend/src/app/graph.tsx`
(the `useEffect` body of `GraphComponent`).

The adapter receives a chart-widget handle (possibly null) and a series of OHLCV
bars, and tries four ingestion entry points in a fixed order inside nested
try/catch blocks — `setDataLoader`, `applyNewData`, `setData`, `loadData` —
stopping at the first that completes; afterwards it calls `setSymbol` and
`setPeriod` inside the surrounding try/catch.

The embedding models the handle as a behaviour table: each of the six entry
points either completes normally or signals failure (absent method / throw —
in JS both surface as a thrown error at the call site).  Execution is modelled
by a writer-plus-exception effect: a run accumulates the list of events
(calls invoked on the handle, with the data they carry, and the observability
records the component logs) and either returns or propagates a thrown value.
The source's `try { A } catch (e) { B }` is `tryCatchE`; statement sequencing
is `seqE`/`bindE`.
-/

/-- One OHLCV sample (interface `BarData`, graph.tsx lines 5-12).  Field
`open` is written `«open»` because `open` is a Lean keyword.  Prices and
volume are modelled as rationals; the adapter never computes with them. -/
structure Bar where
  timestamp : Int
  «open» : ℚ
  high : ℚ
  low : ℚ
  close : ℚ
  volume : ℚ
deriving DecidableEq, Repr

/-- The hard-wired sample series (graph.tsx lines 42-123). -/
def sampleData : List Bar :=
  [ ⟨1517846400000, 7424.6, 7511.3, 6032.3, 7310.1, 224461⟩,
    ⟨1517932800000, 7310.1, 8499.9, 6810, 8165.4, 148807⟩,
    ⟨1518019200000, 8166.7, 8700.8, 7400, 8245.1, 24467⟩,
    ⟨1518105600000, 8244, 8494, 7760, 8364, 29834⟩,
    ⟨1518192000000, 8363.6, 9036.7, 8269.8, 8311.9, 28203⟩,
    ⟨1518278400000, 8301, 8569.4, 7820.2, 8426, 59854⟩,
    ⟨1518364800000, 8426, 8838, 8024, 8640, 54457⟩,
    ⟨1518451200000, 8640, 8976.8, 8360, 8500, 51156⟩,
    ⟨1518537600000, 8504.9, 9307.3, 8474.3, 9307.3, 49118⟩,
    ⟨1518624000000, 9307.3, 9897, 9182.2, 9774, 48092⟩ ]

/-- Parameters handed to a data loader's `getBars` (interface `GetBarsParams`,
graph.tsx lines 18-20, destructured as `({ callback })` on line 132).  The
source interface declares the `callback` field; `rest` stands for whatever
further request fields the widget includes in the params object at the call
site (TypeScript structural typing permits them), which the destructuring
ignores.  The callback's result type is `α` (in the source it is `void`;
keeping it abstract lets a logging callback observe the invocations). -/
structure GetBarsParams (α ρ : Type) where
  callback : List Bar → α
  rest : ρ

/-- The data-loader interface (graph.tsx lines 23-25). -/
structure DataLoader (α ρ : Type) where
  getBars : GetBarsParams α ρ → α

/-- The data loader built by the callback-registration strategy
(graph.tsx lines 131-136): its `getBars` invokes the supplied callback once,
with the entire captured series. -/
def mkDataLoader {α ρ : Type} (series : List Bar) : DataLoader α ρ :=
  ⟨fun p => p.callback series⟩

/-- The four ingestion strategies, named after the entry point each one
calls (graph.tsx lines 137, 147, 154, 161). -/
inductive Strategy
  | setDataLoader
  | applyNewData
  | setData
  | loadData
deriving DecidableEq, Repr, Fintype

/-- Priority index of a strategy: strategies are tried in `pos` order. -/
def Strategy.pos : Strategy → Nat
  | .setDataLoader => 0
  | .applyNewData => 1
  | .setData => 2
  | .loadData => 3

/-- The strategy catalogue in priority order (the nesting order of the
try/catch chain, graph.tsx lines 130-169). -/
def strategyOrder : List Strategy :=
  [.setDataLoader, .applyNewData, .setData, .loadData]

/-- The two post-provisioning configuration calls (graph.tsx lines 172-173). -/
inductive ConfigCall
  | setSymbol
  | setPeriod
deriving DecidableEq, Repr, Fintype

/-- An operation the adapter can invoke on the widget handle. -/
inductive Op
  | strat (s : Strategy)
  | config (c : ConfigCall)
deriving DecidableEq, Repr, Fintype

/-- Behaviour table of one widget handle: for each entry point, whether a
call to it completes normally (`true`) or signals failure (`false`) — the
latter covers both a missing method and one that throws, which in JS both
surface as a thrown error at the call site.  The adapter invokes each entry
point at most once per run, so a per-entry-point boolean captures every
behaviour the run can observe. -/
structure Handle where
  setDataLoaderOk : Bool
  applyNewDataOk : Bool
  setDataOk : Bool
  loadDataOk : Bool
  setSymbolOk : Bool
  setPeriodOk : Bool
deriving DecidableEq, Repr, Fintype

/-- Whether a call to the given entry point completes on this handle. -/
def Handle.ok (h : Handle) : Op → Bool
  | .strat .setDataLoader => h.setDataLoaderOk
  | .strat .applyNewData => h.applyNewDataOk
  | .strat .setData => h.setDataOk
  | .strat .loadData => h.loadDataOk
  | .config .setSymbol => h.setSymbolOk
  | .config .setPeriod => h.setPeriodOk

/-- Whether a strategy's entry point completes on this handle. -/
def Handle.stratOk (h : Handle) (s : Strategy) : Bool :=
  h.ok (Op.strat s)

/-- Whether a configuration call completes on this handle. -/
def Handle.configOk (h : Handle) (c : ConfigCall) : Bool :=
  h.ok (Op.config c)

/-- The argument an invocation carries to the handle. -/
inductive Arg
  /-- the `DataLoader` object of graph.tsx lines 131-136, i.e.
  `mkDataLoader captured`; the constructor records the series the loader's
  closure captured. -/
  | loader (captured : List Bar)
  /-- the series passed directly (`applyNewData`, `setData`, `loadData`). -/
  | bars (data : List Bar)
  /-- `setSymbol` is handed the ticker object, graph.tsx line 172. -/
  | symbol (ticker : String)
  /-- `setPeriod` is handed the span object, graph.tsx line 173. -/
  | period (span : Nat) (ptype : String)
deriving DecidableEq, Repr

/-- The argument the adapter hands to each entry point when provisioning
`series` (graph.tsx lines 137, 147, 154, 161, 172, 173). -/
def callArg (series : List Bar) : Op → Arg
  | .strat .setDataLoader => .loader series
  | .strat .applyNewData => .bars series
  | .strat .setData => .bars series
  | .strat .loadData => .bars series
  | .config .setSymbol => .symbol "TestSymbol"
  | .config .setPeriod => .period 1 "day"

/-- An observability record the component logs (the spec's §6 surface;
the component's two informational logs on lines 125-126 are plumbing and
carry no outcome information, so they are not modelled). -/
inductive Record
  /-- the log "… called successfully" (lines 138, 148, 155, 162). -/
  | strategySucceeded (s : Strategy)
  /-- the log "… failed" inside the matching catch (lines 140, 150, 157, 164). -/
  | strategyFailed (s : Strategy)
  /-- the log "All data loading methods failed" (line 165). -/
  | allFailed
  /-- the log "Failed to initialize KLineChart" (line 34). -/
  | initFailed
  /-- the log "Error setting up chart" in the outer catch (line 175). -/
  | setupError
deriving DecidableEq, Repr

/-- One event of a run: a call invoked on the handle (with the data it
carries) or a record logged by the component. -/
inductive Event
  | invoke (op : Op) (a : Arg)
  | record (r : Record)
deriving DecidableEq, Repr

/-- A computation with an event trace and a thrown-value channel: the events
emitted so far, and either a normal result or the thrown value (`Op` names
the call that threw). -/
structure Eff (α : Type) where
  events : List Event
  result : Except Op α

/-- Emit an observability record. -/
def emitE (r : Record) : Eff Unit :=
  ⟨[Event.record r], Except.ok ()⟩

/-- Invoke an entry point on the handle with the given argument: the
invocation is traced, and it completes or throws per the handle's
behaviour table. -/
def callE (h : Handle) (op : Op) (a : Arg) : Eff Unit :=
  ⟨[Event.invoke op a], if h.ok op then Except.ok () else Except.error op⟩

/-- Sequencing: run `x`; if it returned, continue with `f`; a thrown value
propagates. -/
def bindE {α β : Type} (x : Eff α) (f : α → Eff β) : Eff β :=
  match x.result with
  | Except.ok a =>
      let y := f a
      ⟨x.events ++ y.events, y.result⟩
  | Except.error e => ⟨x.events, Except.error e⟩

/-- Statement sequencing, discarding the first result. -/
def seqE {α β : Type} (x : Eff α) (y : Eff β) : Eff β :=
  bindE x fun _ => y

/-- `try { x } catch (e) { handler e }`: a value thrown inside `x` is given
to the handler; events of the partial run of `x` stay in the trace. -/
def tryCatchE {α : Type} (x : Eff α) (handler : Op → Eff α) : Eff α :=
  match x.result with
  | Except.ok _ => x
  | Except.error e =>
      let y := handler e
      ⟨x.events ++ y.events, y.result⟩

/-- The nested try/catch data-loading chain (graph.tsx lines 130-169):
Method 1 `setDataLoader` (handed the data loader closing over `series`),
on failure Method 2 `applyNewData`, then Method 3 `setData`, then Method 4
`loadData`; each catch logs the failure before trying the next method, and
the innermost catch logs that all methods failed. -/
def dataChain (h : Handle) (series : List Bar) : Eff Unit :=
  tryCatchE
    (seqE (callE h (Op.strat .setDataLoader) (Arg.loader series))
          (emitE (Record.strategySucceeded .setDataLoader)))
    (fun _ =>
      seqE (emitE (Record.strategyFailed .setDataLoader))
        (tryCatchE
          (seqE (callE h (Op.strat .applyNewData) (Arg.bars series))
                (emitE (Record.strategySucceeded .applyNewData)))
          (fun _ =>
            seqE (emitE (Record.strategyFailed .applyNewData))
              (tryCatchE
                (seqE (callE h (Op.strat .setData) (Arg.bars series))
                      (emitE (Record.strategySucceeded .setData)))
                (fun _ =>
                  seqE (emitE (Record.strategyFailed .setData))
                    (tryCatchE
                      (seqE (callE h (Op.strat .loadData) (Arg.bars series))
                            (emitE (Record.strategySucceeded .loadData)))
                      (fun _ =>
                        seqE (emitE (Record.strategyFailed .loadData))
                             (emitE Record.allFailed))))))))

/-- The provisioning part of the `useEffect` body (graph.tsx lines 30-176):
if the handle is null, log the initialization failure and return at once
(lines 33-36); otherwise run the data-loading chain and then, inside the
surrounding try/catch, call `setSymbol` and `setPeriod` (lines 171-173);
anything thrown there is caught by the outer catch (lines 174-176).  The
series is a parameter; the component instantiates it with `sampleData`. -/
def useEffectBody (chart : Option Handle) (series : List Bar) : Eff Unit :=
  match chart with
  | none => emitE Record.initFailed
  | some h =>
      tryCatchE
        (seqE (dataChain h series)
          (seqE (callE h (Op.config .setSymbol) (Arg.symbol "TestSymbol"))
                (callE h (Op.config .setPeriod) (Arg.period 1 "day"))))
        (fun _ => emitE Record.setupError)

/-- The entry points invoked on the handle during a run, in order. -/
def invokedOps (es : List Event) : List Op :=
  es.filterMap fun e =>
    match e with
    | Event.invoke op _ => some op
    | Event.record _ => none

/-- The invocations of a run with the argument each one carried, in order. -/
def invokedArgs (es : List Event) : List (Op × Arg) :=
  es.filterMap fun e =>
    match e with
    | Event.invoke op a => some (op, a)
    | Event.record _ => none

/-- The observability records of a run, in order. -/
def recordsOf (es : List Event) : List Record :=
  es.filterMap fun e =>
    match e with
    | Event.invoke _ _ => none
    | Event.record r => some r

/-- The strategies a run reported as succeeded, in order. -/
def strategySuccesses (es : List Event) : List Strategy :=
  es.filterMap fun e =>
    match e with
    | Event.record (Record.strategySucceeded s) => some s
    | _ => none

/-- The strategies a run recorded as failed, in order. -/
def strategyFailures (es : List Event) : List Strategy :=
  es.filterMap fun e =>
    match e with
    | Event.record (Record.strategyFailed s) => some s
    | _ => none

/-- The spec's `ProvisionOutcome`: `Succeeded(strategyName)`,
`AllFailed(failures)`, or the precondition failure on a null handle. -/
inductive ProvisionOutcome
  | preconditionError
  | succeeded (s : Strategy)
  | allFailed (failures : List Strategy)
deriving DecidableEq, Repr

/-- Modelled from the spec: the `ProvisionOutcome` of one provisioning call,
read off the run's records — `preconditionError` on a null handle,
`succeeded s` when the run reported strategy `s` as succeeded, and
`allFailed` with the recorded failures otherwise.  (The source reports the
outcome only through its logs; this is the abstraction of those logs the
spec's contract `provision → ProvisionOutcome` describes.) -/
def specOutcome (chart : Option Handle) (series : List Bar) : ProvisionOutcome :=
  match chart with
  | none => ProvisionOutcome.preconditionError
  | some h =>
      match strategySuccesses ((useEffectBody (some h) series).events) with
      | s :: _ => ProvisionOutcome.succeeded s
      | [] =>
          ProvisionOutcome.allFailed
            (strategyFailures ((useEffectBody (some h) series).events))

/-- Derived view: the call trace of a run as a function of the handle alone
(the adapter invokes the same entry points whatever the series; the series
only appears inside the arguments). -/
def opsTrace (h : Handle) : List Op :=
  invokedOps ((useEffectBody (some h) []).events)

/-- Derived view: the records of a run as a function of the handle alone. -/
def recordsTrace (h : Handle) : List Record :=
  recordsOf ((useEffectBody (some h) []).events)

/-- Derived view: the success records as a function of the handle alone. -/
def succTrace (h : Handle) : List Strategy :=
  strategySuccesses ((useEffectBody (some h) []).events)

/-- Derived view: the failure records as a function of the handle alone. -/
def failTrace (h : Handle) : List Strategy :=
  strategyFailures ((useEffectBody (some h) []).events)

/-- Derived view: the outcome as a function of the handle alone. -/
def outcomeView (h : Handle) : ProvisionOutcome :=
  specOutcome (some h) []

lemma invokedOps_const (series : List Bar) (h : Handle) :
    invokedOps ((useEffectBody (some h) series).events) = opsTrace h := by
  obtain ⟨a, b, c, d, e, f⟩ := h
  cases a <;> cases b <;> cases c <;> cases d <;> cases e <;> cases f <;> rfl

lemma recordsOf_const (series : List Bar) (h : Handle) :
    recordsOf ((useEffectBody (some h) series).events) = recordsTrace h := by
  obtain ⟨a, b, c, d, e, f⟩ := h
  cases a <;> cases b <;> cases c <;> cases d <;> cases e <;> cases f <;> rfl

lemma strategySuccesses_const (series : List Bar) (h : Handle) :
    strategySuccesses ((useEffectBody (some h) series).events) = succTrace h := by
  obtain ⟨a, b, c, d, e, f⟩ := h
  cases a <;> cases b <;> cases c <;> cases d <;> cases e <;> cases f <;> rfl

lemma strategyFailures_const (series : List Bar) (h : Handle) :
    strategyFailures ((useEffectBody (some h) series).events) = failTrace h := by
  obtain ⟨a, b, c, d, e, f⟩ := h
  cases a <;> cases b <;> cases c <;> cases d <;> cases e <;> cases f <;> rfl

lemma specOutcome_const (series : List Bar) (h : Handle) :
    specOutcome (some h) series = outcomeView h := by
  obtain ⟨a, b, c, d, e, f⟩ := h
  cases a <;> cases b <;> cases c <;> cases d <;> cases e <;> cases f <;> rfl

lemma result_ok_all (chart : Option Handle) (series : List Bar) :
    (useEffectBody chart series).result = Except.ok () := by
  match chart with
  | none => rfl
  | some h =>
    obtain ⟨a, b, c, d, e, f⟩ := h
    cases a <;> cases b <;> cases c <;> cases d <;> cases e <;> cases f <;> rfl

/-- C1: for every non-null handle and every series, the four strategies are
attempted strictly in the priority order `setDataLoader`, `applyNewData`,
`setData`, `loadData`: a strategy is attempted iff every earlier one failed,
the outcome reports exactly the first strategy whose entry point completes,
no strategy after a reported success is ever invoked, and at most one
strategy succeeds per call. -/
theorem claim_C1 : ∀ (series : List Bar) (h : Handle) (s : Strategy),
    ((Op.strat s ∈ invokedOps ((useEffectBody (some h) series).events)) ↔
      ∀ t : Strategy, t.pos < s.pos → h.stratOk t = false)
    ∧ (specOutcome (some h) series = ProvisionOutcome.succeeded s ↔
        (h.stratOk s = true ∧ ∀ t : Strategy, t.pos < s.pos → h.stratOk t = false))
    ∧ (specOutcome (some h) series = ProvisionOutcome.succeeded s →
        ∀ t : Strategy, s.pos < t.pos →
          Op.strat t ∉ invokedOps ((useEffectBody (some h) series).events))
    ∧ (strategySuccesses ((useEffectBody (some h) series).events)).length ≤ 1 := by
  intro series
  simp only [invokedOps_const, specOutcome_const, strategySuccesses_const]
  decide

/-- Witness for C1 at a concrete input: on a handle whose `setDataLoader`
throws and whose `applyNewData` completes, `applyNewData` is attempted and
is the reported strategy. -/
theorem claim_C1_witness :
    Op.strat Strategy.applyNewData ∈
      invokedOps ((useEffectBody (some ⟨false, true, true, false, true, true⟩) sampleData).events)
    ∧ specOutcome (some ⟨false, true, true, false, true, true⟩) sampleData
        = ProvisionOutcome.succeeded Strategy.applyNewData :=
  ⟨(claim_C1 sampleData ⟨false, true, true, false, true, true⟩ Strategy.applyNewData).1.mpr
      (by decide),
   (claim_C1 sampleData ⟨false, true, true, false, true, true⟩ Strategy.applyNewData).2.1.mpr
      (by decide)⟩

/-- C2: on a non-null handle on which all four strategy invocations fail,
the outcome is `AllFailed` with exactly four recorded failures, one per
strategy in priority order, and nothing is thrown to the caller. -/
theorem claim_C2 : ∀ (series : List Bar) (h : Handle),
    h.stratOk Strategy.setDataLoader = false →
    h.stratOk Strategy.applyNewData = false →
    h.stratOk Strategy.setData = false →
    h.stratOk Strategy.loadData = false →
    specOutcome (some h) series = ProvisionOutcome.allFailed strategyOrder
    ∧ strategyFailures ((useEffectBody (some h) series).events) = strategyOrder
    ∧ Record.allFailed ∈ recordsOf ((useEffectBody (some h) series).events)
    ∧ (useEffectBody (some h) series).result = Except.ok () := by
  intro series
  simp only [specOutcome_const, strategyFailures_const, recordsOf_const, result_ok_all]
  decide

/-- Witness for C2 at a concrete input: a handle on which every strategy
entry point throws (and only the configuration calls complete). -/
theorem claim_C2_witness :
    specOutcome (some ⟨false, false, false, false, true, true⟩) sampleData
      = ProvisionOutcome.allFailed strategyOrder
    ∧ strategyFailures ((useEffectBody (some ⟨false, false, false, false, true, true⟩) sampleData).events)
        = strategyOrder
    ∧ Record.allFailed ∈
        recordsOf ((useEffectBody (some ⟨false, false, false, false, true, true⟩) sampleData).events)
    ∧ (useEffectBody (some ⟨false, false, false, false, true, true⟩) sampleData).result
        = Except.ok () :=
  claim_C2 sampleData ⟨false, false, false, false, true, true⟩ rfl rfl rfl rfl

/-- C3: for every handle (null included), every series, and every behaviour
of the handle's entry points, the run returns normally — no thrown value
escapes the adapter; every failure of a strategy attempt or of the
configuration calls is contained by a catch inside the `useEffect` body. -/
theorem claim_C3 : ∀ (chart : Option Handle) (series : List Bar),
    (useEffectBody chart series).result = Except.ok () := by
  intro chart series
  exact result_ok_all chart series

/-- C4: on a null handle the run only logs the initialization failure and
returns at once: the outcome is the precondition error, no strategy is
attempted, and no configuration call touches the handle. -/
theorem claim_C4 : ∀ (series : List Bar),
    useEffectBody none series = ⟨[Event.record Record.initFailed], Except.ok ()⟩
    ∧ specOutcome none series = ProvisionOutcome.preconditionError
    ∧ invokedOps ((useEffectBody none series).events) = [] := by
  intro series
  exact ⟨rfl, rfl, rfl⟩

/-- Counterexample to C5 as stated: on a handle whose four strategy entry
points all throw (outcome `AllFailed`), the code still invokes both
configuration calls — they are not applied "only if provisioning
succeeded". -/
theorem claim_C5_counterexample :
    specOutcome (some ⟨false, false, false, false, true, true⟩) sampleData
      = ProvisionOutcome.allFailed strategyOrder
    ∧ Op.config ConfigCall.setSymbol ∈
        invokedOps ((useEffectBody (some ⟨false, false, false, false, true, true⟩) sampleData).events)
    ∧ Op.config ConfigCall.setPeriod ∈
        invokedOps ((useEffectBody (some ⟨false, false, false, false, true, true⟩) sampleData).events) := by
  decide

/-- C5 amended: after the strategy chain the symbol configuration call is
attempted on every non-null handle regardless of the provisioning outcome —
in particular also when every strategy failed — and the period call is
attempted iff the symbol call completed. -/
theorem claim_C5_amended : ∀ (series : List Bar) (h : Handle),
    Op.config ConfigCall.setSymbol ∈ invokedOps ((useEffectBody (some h) series).events)
    ∧ (Op.config ConfigCall.setPeriod ∈ invokedOps ((useEffectBody (some h) series).events) ↔
        h.configOk ConfigCall.setSymbol = true) := by
  intro series
  simp only [invokedOps_const]
  decide

/-- Witness for the amended C5 at a concrete input: with every strategy
failing and `setSymbol` completing, `setPeriod` is still invoked. -/
theorem claim_C5_witness :
    Op.config ConfigCall.setPeriod ∈
      invokedOps ((useEffectBody (some ⟨false, false, false, false, true, true⟩) sampleData).events) :=
  (claim_C5_amended sampleData ⟨false, false, false, false, true, true⟩).2.mpr rfl

/-- Counterexample to C6 as stated: on a handle whose `setDataLoader`
succeeds, whose `setSymbol` throws, and whose `setPeriod` would complete,
the period call is never attempted — the symbol call's failure does prevent
the period call, because both sit in the same outer try/catch. -/
theorem claim_C6_counterexample :
    specOutcome (some ⟨true, false, false, false, false, true⟩) sampleData
      = ProvisionOutcome.succeeded Strategy.setDataLoader
    ∧ Handle.configOk ⟨true, false, false, false, false, true⟩ ConfigCall.setSymbol = false
    ∧ Handle.configOk ⟨true, false, false, false, false, true⟩ ConfigCall.setPeriod = true
    ∧ Op.config ConfigCall.setPeriod ∉
        invokedOps ((useEffectBody (some ⟨true, false, false, false, false, true⟩) sampleData).events) := by
  decide

/-- C6 amended: after a successful strategy the symbol call is attempted;
the period call is attempted iff the symbol call completed (a symbol
failure skips it); a failure of either configuration call is caught inside
the adapter and reported as the setup-error record, nothing is thrown to
the caller, and the outcome remains `Succeeded` with the winning
strategy. -/
theorem claim_C6_amended : ∀ (series : List Bar) (h : Handle) (s : Strategy),
    specOutcome (some h) series = ProvisionOutcome.succeeded s →
    Op.config ConfigCall.setSymbol ∈ invokedOps ((useEffectBody (some h) series).events)
    ∧ (Op.config ConfigCall.setPeriod ∈ invokedOps ((useEffectBody (some h) series).events) ↔
        h.configOk ConfigCall.setSymbol = true)
    ∧ (useEffectBody (some h) series).result = Except.ok ()
    ∧ ((h.configOk ConfigCall.setSymbol = false
          ∨ (h.configOk ConfigCall.setSymbol = true ∧ h.configOk ConfigCall.setPeriod = false)) →
        Record.setupError ∈ recordsOf ((useEffectBody (some h) series).events)
        ∧ specOutcome (some h) series = ProvisionOutcome.succeeded s) := by
  intro series
  simp only [invokedOps_const, specOutcome_const, recordsOf_const, result_ok_all]
  decide

/-- Witness for the amended C6 at a concrete input: strategy `setDataLoader`
succeeds, `setSymbol` throws, `setPeriod` would complete; the symbol call is
attempted, the period call is not, the setup error is recorded and the
outcome stays `Succeeded setDataLoader`. -/
theorem claim_C6_witness :
    Op.config ConfigCall.setSymbol ∈
      invokedOps ((useEffectBody (some ⟨true, false, false, false, false, true⟩) sampleData).events)
    ∧ (Op.config ConfigCall.setPeriod ∈
        invokedOps ((useEffectBody (some ⟨true, false, false, false, false, true⟩) sampleData).events) ↔
        Handle.configOk ⟨true, false, false, false, false, true⟩ ConfigCall.setSymbol = true)
    ∧ (useEffectBody (some ⟨true, false, false, false, false, true⟩) sampleData).result = Except.ok ()
    ∧ ((Handle.configOk ⟨true, false, false, false, false, true⟩ ConfigCall.setSymbol = false
          ∨ (Handle.configOk ⟨true, false, false, false, false, true⟩ ConfigCall.setSymbol = true
              ∧ Handle.configOk ⟨true, false, false, false, false, true⟩ ConfigCall.setPeriod = false)) →
        Record.setupError ∈
          recordsOf ((useEffectBody (some ⟨true, false, false, false, false, true⟩) sampleData).events)
        ∧ specOutcome (some ⟨true, false, false, false, false, true⟩) sampleData
            = ProvisionOutcome.succeeded Strategy.setDataLoader) :=
  claim_C6_amended sampleData ⟨true, false, false, false, false, true⟩ Strategy.setDataLoader
    (by decide)

/-- C7: the pull-style callback registered by the callback-registration
strategy supplies the entire input series in a single call to the widget's
callback, whatever the params object carries besides the callback: for any
callback, `getBars` is exactly one application of the callback to the full
series, and with a logging callback the observed invocations are exactly
`[series]`. -/
theorem claim_C7 :
    (∀ (α ρ : Type) (series : List Bar) (p : GetBarsParams α ρ),
      (mkDataLoader series).getBars p = p.callback series)
    ∧ (∀ (ρ : Type) (r : ρ) (series : List Bar),
      (mkDataLoader series).getBars
          (⟨fun data => [data], r⟩ : GetBarsParams (List (List Bar)) ρ)
        = [series]) :=
  ⟨fun _ _ _ _ => rfl, fun _ _ _ => rfl⟩

/-- C8: the adapter never mutates the series it was given — every
invocation on the handle carries exactly the argument built from the input
series unchanged: the loader handed to `setDataLoader` captures `series`
itself, and `applyNewData`/`setData`/`loadData` receive `series` itself. -/
theorem claim_C8 : ∀ (chart : Option Handle) (series : List Bar),
    invokedArgs ((useEffectBody chart series).events)
      = (invokedOps ((useEffectBody chart series).events)).map
          (fun op => (op, callArg series op)) := by
  intro chart series
  match chart with
  | none => rfl
  | some h =>
    obtain ⟨a, b, c, d, e, f⟩ := h
    cases a <;> cases b <;> cases c <;> cases d <;> cases e <;> cases f <;> rfl

/-- C9: the empty series is not special-cased: on every non-null handle the
run with `[]` invokes the same entry points, logs the same records and has
the same outcome as with any other series, the empty series itself is what
every invocation forwards, and emptiness is never reported as the
precondition error. -/
theorem claim_C9 : ∀ (series : List Bar) (h : Handle),
    invokedOps ((useEffectBody (some h) []).events)
      = invokedOps ((useEffectBody (some h) series).events)
    ∧ recordsOf ((useEffectBody (some h) []).events)
        = recordsOf ((useEffectBody (some h) series).events)
    ∧ specOutcome (some h) [] = specOutcome (some h) series
    ∧ invokedArgs ((useEffectBody (some h) []).events)
        = (invokedOps ((useEffectBody (some h) series).events)).map
            (fun op => (op, callArg [] op))
    ∧ specOutcome (some h) [] ≠ ProvisionOutcome.preconditionError := by
  intro series h
  obtain ⟨a, b, c, d, e, f⟩ := h
  cases a <;> cases b <;> cases c <;> cases d <;> cases e <;> cases f <;>
    exact ⟨rfl, rfl, rfl, rfl, by decide⟩

/-- C10: frame property — during one run on a non-null handle, the
operations invoked on the handle are exactly the prefix of the four
strategy entry points up to and including the first that completes (all
four when none does), followed by the symbol call and, iff the symbol call
completed, the period call; the model's event trace is exhaustive, so
nothing else touches the handle or the environment. -/
theorem claim_C10 : ∀ (series : List Bar) (h : Handle),
    invokedOps ((useEffectBody (some h) series).events)
      = (strategyOrder.take (strategyOrder.findIdx h.stratOk + 1)).map Op.strat
        ++ (if h.configOk ConfigCall.setSymbol then
              [Op.config ConfigCall.setSymbol, Op.config ConfigCall.setPeriod]
            else [Op.config ConfigCall.setSymbol]) := by
  intro series
  simp only [invokedOps_const]
  decide
